import Mathlib

/-!
Verification of `app/repositories/map_requests.py` (bancho.py fork).

The module is a data-access layer over one table, `map_requests`.  We embed
it shallowly: the table is a list of rows plus an auto-increment counter and
a server clock; each repository function is a Lean function mirroring the
Python control flow statement by statement.  The database driver is modelled
at the level the code exercises it:

* every statement string is reproduced as the Python f-strings evaluate it;
* before a statement runs, the driver binds named parameters client-side
  (as SQLAlchemy `text(...).bindparams(**values)` does): a parameter key
  absent from the statement, or a `:name` in the statement with no value,
  raises an error before any row is touched — this is modelled by
  `bindCheck`;
* `execute` of an INSERT returns the auto-generated id; `execute` of a
  DELETE/UPDATE returns a driver integer status, never a row object;
  calling a row attribute such as `._mapping` on it is an AttributeError;
* each operation also returns the list of statements actually issued to
  the store, so "the store was not contacted" is a provable statement.
-/

namespace MapRequests

/-- A row of the `map_requests` table.  All columns are NOT NULL;
`active` is tinyint(1) holding a boolean. -/
structure MapRequest where
  id : Int
  map_id : Int
  player_id : Int
  datetime : Nat
  active : Bool
deriving Repr, DecidableEq

/-- The store state: table contents, the AUTO_INCREMENT counter for `id`,
and the server clock used by `NOW()`. -/
structure DB where
  rows : List MapRequest
  next_id : Int
  now : Nat
deriving Repr, DecidableEq

/-- Errors an operation can surface.
`invalidArgument` is a `ValueError` raised by the module itself;
`storeError` is raised by the database driver (e.g. bind-parameter
mismatch); `attributeError` is a Python `AttributeError`;
`assertionError` is a failing `assert`. -/
inductive Err where
  | invalidArgument (msg : String)
  | storeError (msg : String)
  | attributeError (msg : String)
  | assertionError (msg : String)
deriving Repr, DecidableEq

/-- A bound parameter value. `vNull` is Python `None`; `vIntList` binds a
list (for `IN :map_ids`); `vRow` is a returned row object. -/
inductive Val where
  | vNull
  | vInt (n : Int)
  | vBool (b : Bool)
  | vIntList (ns : List Int)
  | vRow (r : MapRequest)
deriving Repr, DecidableEq

/-- The parameter mapping passed with a statement (a Python dict,
modelled as an association list in insertion order). -/
abbrev Params := List (String × Val)

def isIdentChar (c : Char) : Bool :=
  c.isAlphanum || c = '_'

/-- Scan the characters of a statement for named parameters `:name`.
`acc = some cs` means we are inside a parameter name whose characters so
far are `cs` (reversed). -/
def scanParams : List Char → Option (List Char) → List String
  | [], none => []
  | [], some acc => [String.mk acc.reverse]
  | c :: rest, none =>
      if c = ':' then scanParams rest (some []) else scanParams rest none
  | c :: rest, some acc =>
      if isIdentChar c then scanParams rest (some (c :: acc))
      else if c = ':' then String.mk acc.reverse :: scanParams rest (some [])
      else String.mk acc.reverse :: scanParams rest none

/-- The named parameters a statement references. -/
def queryParamNames (q : String) : List String :=
  scanParams q.toList none

/-- The client-side bind step of the driver: every `:name` in the statement must
have a value, and every supplied key must occur in the statement (SQLAlchemy
raises on an unknown key in `bindparams`, and on an unbound parameter at
compile time).  Both failures surface before the server sees the statement. -/
def bindCheck (q : String) (params : Params) : Bool :=
  (queryParamNames q).all (fun n => params.any (fun p => decide (p.1 = n))) &&
  params.all (fun p => (queryParamNames q).contains p.1)

/-- Python `some_value._mapping`: only row objects have it. -/
def rowMapping : Val → Except Err MapRequest
  | .vRow r => .ok r
  | _ => .error (.attributeError "_mapping")

/-- `col = COALESCE(:p, col)` for an integer column: a NULL parameter is a
wildcard, an integer parameter demands equality. -/
def coalesceIntEq (p : Val) (col : Int) : Bool :=
  match p with
  | .vNull => true
  | .vInt n => decide (col = n)
  | .vBool b => decide (col = (if b then 1 else 0))
  | _ => false

/-- The tinyint(1) value stored in the `active` column. -/
def activeCol (b : Bool) : Int :=
  if b then 1 else 0

def optIntVal : Option Int → Val
  | none => .vNull
  | some n => .vInt n

/-- Dict lookup on a parameter mapping (first binding wins). -/
def lookupParam (n : String) (params : Params) : Val :=
  match params.find? (fun p => decide (p.1 = n)) with
  | some p => p.2
  | none => .vNull

/-! ### Statement strings, as the Python f-strings evaluate -/

def READ_PARAMS : String :=
  "id, map_id, player_id, datetime, active\n"

def createInsertQuery : String :=
  "INSERT INTO map_requests (map_id, player_id, datetime, active)\n     VALUES (:map_id, :player_id, NOW(), :active)\n"

def createSelectQuery : String :=
  "SELECT " ++ READ_PARAMS ++ "  FROM map_requests\n WHERE id = :id\n"

def fetchOneQuery : String :=
  "SELECT " ++ READ_PARAMS ++ "  FROM map_requests\n WHERE id = COALESCE(:id, id)\n   AND map_id = COALESCE(:map_id, map_id)\n   AND player_id = COALESCE(:player_id, player_id)\n   AND active = COALESCE(:active, active)\n"

def fetchCountQuery : String :=
  "SELECT COUNT(*) AS count\n  FROM map_requests\nWHERE map_id = COALESCE(:map_id, map_id)\n  AND player_id = COALESCE(:player_id, player_id)\n  AND active = COALESCE(:active, active)\n"

def fetchAllQuery : String :=
  "SELECT " ++ READ_PARAMS ++ "  FROM map_requests\n WHERE map_id = COALESCE(:map_id, map_id)\n  AND player_id = COALESCE(:player_id, player_id)\n  AND active = COALESCE(:active, active)\n"

/-- The SET clause built by
`",".join(f"\x7bk\x7d = COALESCE(:\x7bk\x7d, \x7bk\x7d)" for k in update_fields)`. -/
def updateSetClause (update_fields : Params) : String :=
  String.intercalate ","
    (update_fields.map (fun k => k.1 ++ " = COALESCE(:" ++ k.1 ++ ", " ++ k.1 ++ ")"))

def updateQuery (update_fields : Params) : String :=
  "UPDATE map_requests\n   SET " ++ updateSetClause update_fields ++ "\n WHERE map_id IN :map_ids\n"

def updateSelectQuery : String :=
  "SELECT " ++ READ_PARAMS ++ "  FROM map_requests\nWHERE map_id IN :map_ids\n"

def deleteSelectQuery : String :=
  "SELECT " ++ READ_PARAMS ++ "  FROM map_requests\nWHERE id = :id\n"

def deleteDeleteQuery : String :=
  "DELETE FROM map_requests\n      WHERE id = :id\n"

/-! ### The repository operations

Each returns `(result-or-error, store state afterwards, statements issued)`.
Statements already executed keep their effect when a later step raises, as
no transaction spans the round-trips. -/

/-- `create(map_id, player_id, active)`: INSERT with `NOW()` and the
auto-increment id, then re-read by the generated id; `assert` the re-read
found a row. -/
def create (map_id player_id : Int) (active : Bool) (db : DB) :
    Except Err MapRequest × DB × List String :=
  let params : Params :=
    [("map_id", .vInt map_id), ("player_id", .vInt player_id), ("active", .vBool active)]
  if bindCheck createInsertQuery params then
    let rec_id := db.next_id
    let row : MapRequest :=
      { id := rec_id, map_id := map_id, player_id := player_id,
        datetime := db.now, active := active }
    let db1 : DB := { db with rows := db.rows ++ [row], next_id := db.next_id + 1 }
    let params2 : Params := [("id", .vInt rec_id)]
    if bindCheck createSelectQuery params2 then
      let map_request := db1.rows.find? (fun r => decide (r.id = rec_id))
      match map_request with
      | some r => (.ok r, db1, [createInsertQuery, createSelectQuery])
      | none =>
          (.error (.assertionError "map_request is not None"), db1,
            [createInsertQuery, createSelectQuery])
    else (.error (.storeError "bind parameter mismatch"), db1, [createInsertQuery])
  else (.error (.storeError "bind parameter mismatch"), db, [])

/-- `fetch_one(id, map_id, player_id, active)`: raises `ValueError` when all
four filters are `None`, otherwise SELECTs with COALESCE wildcards and
returns the first matching row, if any. -/
def fetch_one (id map_id player_id active : Option Int) (db : DB) :
    Except Err (Option MapRequest) × DB × List String :=
  if id.isNone && map_id.isNone && player_id.isNone && active.isNone then
    (.error (.invalidArgument "Must provide at least one parameter."), db, [])
  else
    let params : Params :=
      [("id", optIntVal id), ("map_id", optIntVal map_id),
       ("player_id", optIntVal player_id), ("active", optIntVal active)]
    if bindCheck fetchOneQuery params then
      let map_request := db.rows.find? (fun r =>
        coalesceIntEq (lookupParam "id" params) r.id &&
        coalesceIntEq (lookupParam "map_id" params) r.map_id &&
        coalesceIntEq (lookupParam "player_id" params) r.player_id &&
        coalesceIntEq (lookupParam "active" params) (activeCol r.active))
      (.ok map_request, db, [fetchOneQuery])
    else (.error (.storeError "bind parameter mismatch"), db, [fetchOneQuery])

/-- `fetch_count(map_id, player_id, active)`: COUNT(*) with COALESCE
wildcards; COUNT(*) always yields one row, so the `assert rec is not None`
always passes. -/
def fetch_count (map_id player_id active : Option Int) (db : DB) :
    Except Err Int × DB × List String :=
  let params : Params :=
    [("map_id", optIntVal map_id), ("player_id", optIntVal player_id),
     ("active", optIntVal active)]
  if bindCheck fetchCountQuery params then
    let count := (db.rows.filter (fun r =>
      coalesceIntEq (lookupParam "map_id" params) r.map_id &&
      coalesceIntEq (lookupParam "player_id" params) r.player_id &&
      coalesceIntEq (lookupParam "active" params) (activeCol r.active))).length
    (.ok (count : Int), db, [fetchCountQuery])
  else (.error (.storeError "bind parameter mismatch"), db, [fetchCountQuery])

/-- `fetch_all(map_id, player_id, active)`: SELECT with COALESCE wildcards,
returning every matching row in store order. -/
def fetch_all (map_id player_id active : Option Int) (db : DB) :
    Except Err (List MapRequest) × DB × List String :=
  let params : Params :=
    [("map_id", optIntVal map_id), ("player_id", optIntVal player_id),
     ("active", optIntVal active)]
  if bindCheck fetchAllQuery params then
    let map_requests := db.rows.filter (fun r =>
      coalesceIntEq (lookupParam "map_id" params) r.map_id &&
      coalesceIntEq (lookupParam "player_id" params) r.player_id &&
      coalesceIntEq (lookupParam "active" params) (activeCol r.active))
    (.ok map_requests, db, [fetchAllQuery])
  else (.error (.storeError "bind parameter mismatch"), db, [fetchAllQuery])

/-- The `update_fields` dict: a key is present only when the argument was
not the UNSET sentinel (`none` here plays the sentinel). -/
def updateFields (player_id : Option Int) (active : Option Bool) : Params :=
  (match player_id with | some v => [("player_id", Val.vInt v)] | none => []) ++
  (match active with | some v => [("active", Val.vBool v)] | none => [])

/-- What the SET clause of the UPDATE would do to a targeted row (parameters are
never NULL here, so COALESCE picks the parameter). -/
def applyUpdateFields (update_fields : Params) (r : MapRequest) : MapRequest :=
  { r with
    player_id :=
      match lookupParam "player_id" update_fields with
      | .vInt n => n
      | _ => r.player_id,
    active :=
      match lookupParam "active" update_fields with
      | .vBool b => b
      | _ => r.active }

/-- `update(map_ids, player_id=UNSET, active=UNSET)`: builds the UPDATE over
`WHERE map_id IN :map_ids`, but the parameter dict is
`\x7b"map_id": map_ids\x7d | update_fields` — the key is `"map_id"`, while
the statement references `:map_ids`, so the bind step of the driver fails.  On
the (unreachable) success path the code re-reads one row by the same
`map_ids`. -/
def update (map_ids : List Int) (player_id : Option Int) (active : Option Bool)
    (db : DB) : Except Err (Option MapRequest) × DB × List String :=
  let update_fields := updateFields player_id active
  let query := updateQuery update_fields
  let params : Params := ("map_id", Val.vIntList map_ids) :: update_fields
  if bindCheck query params then
    let db1 : DB := { db with rows := db.rows.map (fun r =>
      if map_ids.contains r.map_id then applyUpdateFields update_fields r else r) }
    let params2 : Params := [("map_ids", Val.vIntList map_ids)]
    if bindCheck updateSelectQuery params2 then
      let map_request := db1.rows.find? (fun r => map_ids.contains r.map_id)
      (.ok map_request, db1, [query, updateSelectQuery])
    else (.error (.storeError "bind parameter mismatch"), db1, [query, updateSelectQuery])
  else (.error (.storeError "bind parameter mismatch"), db, [query])

/-- `delete(id)`: read the row by id; if absent return `None`; otherwise
DELETE by id, and build the return value from the result of `execute` on the DELETE
(a driver integer status, modelled as `.vInt 0`), not from the earlier
read `rec`. -/
def delete (id : Int) (db : DB) :
    Except Err (Option MapRequest) × DB × List String :=
  let params : Params := [("id", .vInt id)]
  if bindCheck deleteSelectQuery params then
    let rec_row := db.rows.find? (fun r => decide (r.id = id))
    match rec_row with
    | none => (.ok none, db, [deleteSelectQuery])
    | some _ =>
      if bindCheck deleteDeleteQuery params then
        let db1 : DB := { db with rows := db.rows.filter (fun r => !(decide (r.id = id))) }
        let map_request : Val := .vInt 0
        if map_request ≠ .vNull then
          match rowMapping map_request with
          | .ok r => (.ok (some r), db1, [deleteSelectQuery, deleteDeleteQuery])
          | .error e => (.error e, db1, [deleteSelectQuery, deleteDeleteQuery])
        else (.ok none, db1, [deleteSelectQuery, deleteDeleteQuery])
      else (.error (.storeError "bind parameter mismatch"), db,
        [deleteSelectQuery, deleteDeleteQuery])
  else (.error (.storeError "bind parameter mismatch"), db, [deleteSelectQuery])


/-! ### Concrete store states used by closed theorems -/

/-- A one-row table: the row has id 1, map_id 5, player_id 7, inactive. -/
def db_one : DB :=
  { rows := [{ id := 1, map_id := 5, player_id := 7, datetime := 0, active := false }],
    next_id := 2, now := 3 }

/-- A two-row table with map_id values 1 and 2, both inactive. -/
def db_two : DB :=
  { rows := [{ id := 1, map_id := 1, player_id := 7, datetime := 0, active := false },
             { id := 2, map_id := 2, player_id := 8, datetime := 0, active := false }],
    next_id := 3, now := 4 }

/-- An empty table. -/
def db_empty : DB := { rows := [], next_id := 1, now := 5 }

/-- The row `create 10 20 true` inserts into `db_empty`. -/
def created_row : MapRequest :=
  { id := 1, map_id := 10, player_id := 20, datetime := 5, active := true }

instance instDecEqExcept {ε α : Type} [DecidableEq ε] [DecidableEq α] :
    DecidableEq (Except ε α) := fun x y =>
  match x, y with
  | .ok a, .ok b =>
      if h : a = b then .isTrue (congrArg Except.ok h)
      else .isFalse (fun hh => h (Except.ok.inj hh))
  | .error a, .error b =>
      if h : a = b then .isTrue (congrArg Except.error h)
      else .isFalse (fun hh => h (Except.error.inj hh))
  | .ok _, .error _ => .isFalse (fun hh => Except.noConfusion hh)
  | .error _, .ok _ => .isFalse (fun hh => Except.noConfusion hh)

/-- Is the result a module-raised `ValueError` (InvalidArgument)? -/
def isInvalidArgumentErr {α : Type} : Except Err α → Bool
  | .error (.invalidArgument _) => true
  | _ => false

/-- Did the operation return normally? -/
def isOkRes {α : Type} : Except Err α → Bool
  | .ok _ => true
  | _ => false

/-! ### Helper lemmas -/

/-- The bind step of the UPDATE statement fails for every argument shape:
the statement references `:map_ids` while the supplied keys are `map_id`
plus the update-field names, so `update` always propagates a store error
and never touches the table. -/
theorem update_always_store_error (map_ids : List Int) (pid : Option Int)
    (act : Option Bool) (db : DB) :
    update map_ids pid act db =
      (.error (.storeError "bind parameter mismatch"), db,
        [updateQuery (updateFields pid act)]) := by
  rcases pid with _ | p <;> rcases act with _ | a <;> rfl

theorem bindCheck_delete_select (id : Int) :
    bindCheck deleteSelectQuery [("id", Val.vInt id)] = true := rfl

/-- Filtering with all three COALESCE filters NULL keeps every row. -/
theorem filter_coalesce_null (l : List MapRequest) :
    l.filter (fun _ => true) = l := List.filter_true l

/-! ### Claim theorems -/

/-- C1: the spec says `delete(id)` on an existing row returns the
pre-deletion snapshot obtained by the initial read and discards the result
of the DELETE statement.  The code does the opposite: it builds the return
value from the result of `execute` on the DELETE (a driver integer), whose
`._mapping` attribute access raises AttributeError; the snapshot read into
`rec` is never returned.  On `db_one` (one row, id 1) the initial read
finds the row, the DELETE removes it, and the call then errs instead of
returning the snapshot. -/
theorem delete_returns_execute_result_not_snapshot :
    db_one.rows.find? (fun r => decide (r.id = 1)) =
      some { id := 1, map_id := 5, player_id := 7, datetime := 0, active := false } ∧
    delete 1 db_one =
      (.error (.attributeError "_mapping"),
        { rows := [], next_id := 2, now := 3 },
        [deleteSelectQuery, deleteDeleteQuery]) := by
  exact ⟨rfl, by decide⟩

/-- C2: the spec says `update([m1,m2], active=True)` sets `active=True` on
every row whose map_id is m1 or m2 and leaves player_id unchanged.  On
`db_two` (rows with map_id 1 and 2, both inactive), `update [1,2]` with
`active := true` instead fails with a store-level bind error and leaves
both rows inactive: no row is updated. -/
theorem update_active_true_updates_no_row :
    update [1, 2] none (some true) db_two =
      (.error (.storeError "bind parameter mismatch"), db_two,
        [updateQuery (updateFields none (some true))]) ∧
    (update [1, 2] none (some true) db_two).2.1.rows.all (fun r => !r.active) = true := by
  exact ⟨by decide, by decide⟩

/-- C3: whenever at least one of player_id/active is provided, the UPDATE
statement references the named parameter `:map_ids`, while the parameter
mapping binds the key `"map_id"` (holding the list) and no key `"map_ids"`;
executing it therefore raises a store-level error and updates no row. -/
theorem update_bind_key_mismatch (map_ids : List Int) (pid : Option Int)
    (act : Option Bool) (db : DB) (h : pid ≠ none ∨ act ≠ none) :
    (queryParamNames (updateQuery (updateFields pid act))).contains "map_ids" = true ∧
    lookupParam "map_id" (("map_id", Val.vIntList map_ids) :: updateFields pid act) =
      Val.vIntList map_ids ∧
    (("map_id", Val.vIntList map_ids) :: updateFields pid act).find?
      (fun p => decide (p.1 = "map_ids")) = none ∧
    update map_ids pid act db =
      (.error (.storeError "bind parameter mismatch"), db,
        [updateQuery (updateFields pid act)]) := by
  rcases pid with _ | p <;> rcases act with _ | a
  · exact absurd h (by simp)
  all_goals exact ⟨rfl, rfl, rfl, update_always_store_error _ _ _ _⟩

/-- C3 witness: the mismatch at the concrete call `update [1,2]` with
`active := true` on `db_one`. -/
theorem update_bind_key_mismatch_witness :
    (queryParamNames (updateQuery (updateFields none (some true)))).contains "map_ids" = true ∧
    lookupParam "map_id" (("map_id", Val.vIntList [1, 2]) :: updateFields none (some true)) =
      Val.vIntList [1, 2] ∧
    (("map_id", Val.vIntList [1, 2]) :: updateFields none (some true)).find?
      (fun p => decide (p.1 = "map_ids")) = none ∧
    update [1, 2] none (some true) db_one =
      (.error (.storeError "bind parameter mismatch"), db_one,
        [updateQuery (updateFields none (some true))]) :=
  update_bind_key_mismatch [1, 2] none (some true) db_one (Or.inr (by decide))

/-- C4: `fetch_one` with all four filters absent fails with the
InvalidArgument-class `ValueError` before issuing any statement: the store
state is untouched and the trace of issued statements is empty. -/
theorem fetch_one_no_filters_invalid_argument (db : DB) :
    fetch_one none none none none db =
      (.error (.invalidArgument "Must provide at least one parameter."), db, []) := rfl

/-- C5 counterexample: the spec says map_id (like player_id and active) is
mutable via `update`; in fact no call to `update`, on any store state,
ever changes the table at all — in particular no call changes the map_id
of any row — because the bind step of the UPDATE always fails. -/
theorem no_update_call_changes_any_row :
    ¬ ∃ (map_ids : List Int) (pid : Option Int) (act : Option Bool) (db : DB),
        (update map_ids pid act db).2.1.rows ≠ db.rows := by
  rintro ⟨m, p, a, db, hne⟩
  exact hne (by rw [update_always_store_error])

/-- C5 amended: `update` accepts only player_id and active as update
fields (it takes no map_id value), and even those are never applied:
every call to `update` fails with a store-level bind error and leaves the
store unchanged, so no field of any row is in fact mutable via `update`. -/
theorem update_mutates_no_field (map_ids : List Int) (pid : Option Int)
    (act : Option Bool) (db : DB) :
    (update map_ids pid act db).2.1 = db ∧
    (update map_ids pid act db).1 = .error (.storeError "bind parameter mismatch") :=
  ⟨by rw [update_always_store_error], by rw [update_always_store_error]⟩

/-- C6 counterexample: the spec says `update` with no fields provided
either fails with InvalidArgument or is a successful no-op.  At the
concrete call `update [5]` with both fields unset on `db_one`, the result
is neither: it is a store-level error (the bind step fails on the
statement with an empty SET clause). -/
theorem update_no_fields_neither_invalid_argument_nor_noop :
    ¬ (isInvalidArgumentErr (update [5] none none db_one).1 = true ∨
       (isOkRes (update [5] none none db_one).1 = true ∧
        (update [5] none none db_one).2.1 = db_one)) := by decide

/-- C6 amended: `update` with both fields unset deterministically fails
with a store-level error — the generated statement has an empty SET clause
and references `:map_ids`, which is never bound — leaving every row
unchanged; it neither raises InvalidArgument nor returns normally. -/
theorem update_no_fields_deterministic_store_error (map_ids : List Int) (db : DB) :
    updateSetClause (updateFields none none) = "" ∧
    update map_ids none none db =
      (.error (.storeError "bind parameter mismatch"), db,
        [updateQuery (updateFields none none)]) :=
  ⟨rfl, update_always_store_error map_ids none none db⟩

/-- C7: the round-trip create → fetch_one(id) → delete(id) on the empty
store returns the created record twice, but the delete step raises
AttributeError (it builds its return value from the integer result of the
DELETE execute) instead of returning the record a third time; the row is
nonetheless gone afterwards. -/
theorem roundtrip_delete_step_raises :
    (create 10 20 true db_empty).1 = .ok created_row ∧
    (fetch_one (some 1) none none none (create 10 20 true db_empty).2.1).1 =
      .ok (some created_row) ∧
    (delete 1 (create 10 20 true db_empty).2.1).1 =
      .error (.attributeError "_mapping") ∧
    (fetch_one (some 1) none none none
      (delete 1 (create 10 20 true db_empty).2.1).2.1).1 = .ok none := by
  decide

/-- C8: `delete` on an id with no matching row returns absent right after
the initial read: the only statement issued is the SELECT (no DELETE
statement reaches the store) and the table is unchanged. -/
theorem delete_absent_id_no_delete_statement (id : Int) (db : DB)
    (h : ∀ r ∈ db.rows, r.id ≠ id) :
    delete id db = (.ok none, db, [deleteSelectQuery]) := by
  have hf : db.rows.find? (fun r => decide (r.id = id)) = none := by
    rw [List.find?_eq_none]
    intro r hr
    simpa using h r hr
  simp only [delete]
  rw [hf]
  rfl

/-- C8 witness: deleting the absent id 9 from the one-row store. -/
theorem delete_absent_id_witness :
    delete 9 db_one = (.ok none, db_one, [deleteSelectQuery]) :=
  delete_absent_id_no_delete_statement 9 db_one (by decide)

/-- C9: `fetch_count` with all three filters absent is a legal call (no
InvalidArgument guard, unlike `fetch_one`) and returns the total number of
rows in the table. -/
theorem fetch_count_no_filters_total (db : DB) :
    fetch_count none none none db =
      (.ok (db.rows.length : Int), db, [fetchCountQuery]) := by
  show (Except.ok ((db.rows.filter (fun _ => true)).length : Int), db,
    [fetchCountQuery]) = _
  rw [List.filter_true]

/-- C10: `fetch_all(map_id=X)` with the other filters absent returns
exactly the rows whose map_id equals X, regardless of their player_id and
active values; the omitted filters match every row. -/
theorem fetch_all_map_id_exact (X : Int) (db : DB) :
    fetch_all (some X) none none db =
      (.ok (db.rows.filter (fun r => decide (r.map_id = X))), db, [fetchAllQuery]) ∧
    ∀ r : MapRequest,
      r ∈ db.rows.filter (fun r => decide (r.map_id = X)) ↔
        r ∈ db.rows ∧ r.map_id = X := by
  constructor
  · show (Except.ok (db.rows.filter (fun r =>
        (decide (r.map_id = X) && true) && true)), db, [fetchAllQuery]) = _
    simp only [Bool.and_true]
  · intro r
    simp [List.mem_filter]

end MapRequests
